import Mathlib

/-!
Verification of the SD-card initialization driver
(src/External/SDCard_Driver/Src/sd_driver_init.c).

The C functions are shallowly embedded as pure Lean functions.  All
interaction with the outside world (the SPI transport, the card's
responses, and the HAL millisecond tick source) is modelled by explicit
oracle structures: each call site that reads from the hardware draws its
result from a dedicated oracle field, indexed by the number of times the
call site has executed.  The C polling loops, which are bounded by a
wall-clock deadline rather than an iteration count, are embedded as
fuel-indexed recursions returning `Option`; `none` means the fuel was
exhausted before the loop exited (the C loop would still be running).

Machine integers are modelled as `Nat`; the one place where 32-bit
overflow semantics matter (the `HAL_GetTick() - tickstart` wraparound
subtraction on `uint32_t`) is made explicit in `sub32`.

Each embedded function also returns a trace of the transport operations
it performed (`SdEv`), at the granularity of one event per transmitted
command frame / receive poll, which is what the temporal claims are
about.
-/

set_option autoImplicit false

namespace SDDriver

/-- 32-bit wraparound subtraction: the value of the C expression `a - b`
on `uint32_t` operands, as used in `HAL_GetTick() - tickstart`. -/
def sub32 (a b : Nat) : Nat :=
  (a % 2 ^ 32 + (2 ^ 32 - b % 2 ^ 32)) % 2 ^ 32

/-- Modelled from the spec: the `sd_error` status codes declared in
sd_driver_init.h (the header is not under src/).  Section 6 of the spec:
"Returned status codes (bit-flag composable): OK, generic-error, timeout,
transmission-error, unusable-card.  Callers combine via bitwise-OR" —
so OK is 0 and each error code is a distinct bit. -/
def SD_OK : Nat := 0

/-- Modelled from the spec: generic error status bit (see `SD_OK`). -/
def SD_ERROR : Nat := 1

/-- Modelled from the spec: protocol-timeout status bit (see `SD_OK`). -/
def SD_TIMEOUT : Nat := 2

/-- Modelled from the spec: transmission-error status bit (see `SD_OK`). -/
def SD_TRANSMISSION_ERROR : Nat := 4

/-- Modelled from the spec: unusable-card status bit (see `SD_OK`). -/
def SD_UNUSABLE_CARD : Nat := 8

/-- Modelled from the spec: R1 status-byte bit layout from the header
(not under src/).  Spec section 6: "bit0 = in-idle-state, bit1 =
erase-reset, bit2 = illegal-command, ...; all clear (0x00) = ready". -/
def R1_IN_IDLE_STATE : Nat := 0x01

/-- Modelled from the spec: illegal-command bit of the R1 status byte
(bit 2, see `R1_IN_IDLE_STATE`). -/
def R1_ILLEGAL_COMMAND : Nat := 0x04

/-- Modelled from the spec: the all-flags-clear ("ready") R1 value 0x00. -/
def R1_CLEAR_FLAGS : Nat := 0x00

/-- Modelled from the spec: the card-capacity classes (standard /
high-or-extended) of the `sd_status` structure from the header (not under
src/).  `STANDART` [sic, source spelling] is the zero value, matching the
zero initializer `sd_status sd_card_status = { 0 }`. -/
inductive SdCapacity where
  | STANDART
  | HIGH_OR_EXTENDED
deriving DecidableEq

/-- Modelled from the spec: the process-wide `sd_card_status` session
state from the header (not under src/): "version (unset / 1 / 2),
capacity class (standard / high-or-extended), a flag recording whether
initialization failed".  version = 0 means unset. -/
structure SdStatusState where
  version : Nat
  capacity : SdCapacity
  error_in_initialization : Bool
deriving DecidableEq

/-- The zero-initialized session state: `sd_status sd_card_status = { 0 }`
(line 11 of sd_driver_init.c). -/
def initialStatus : SdStatusState :=
  ⟨0, SdCapacity.STANDART, false⟩

/-- One transport operation, for the event traces: `powerOn` is the whole
`sd_card_power_on` idle-clocking sequence (ten 0xff transmissions plus
one flush receive, collapsed into one event), `cmd i` is the transmission
of the 6-byte frame of command index `i` (whether via `HAL_SPI_Transmit`
or via the `SEND_CMD` macro), and `recv` is one `sd_card_receive_byte`
poll of the mode-entry loop. -/
inductive SdEv where
  | powerOn
  | cmd (idx : Nat)
  | recv
deriving DecidableEq

/-- Oracle for one run of `sd_card_enter_spi_mode`: the status values the
transport primitives return and the bytes the card answers with, plus the
tick source.  `firstRecvStatus` is the status of the receive on line 52;
the byte that receive stores in `r1` is dead (the do-while loop body
overwrites `r1` before the loop condition first reads it), so it is not
modelled.  `loopRecvStatus i` / `loopRecvByte i` are the status and byte
of the i-th receive inside the do-while loop (line 57).  `tick k` is the
value of the k-th call to `HAL_GetTick` (k = 0 is `tickstart`,
line 54). -/
structure EnterEnv where
  powerOnStatus : Nat
  goIdleTransmitStatus : Nat
  firstRecvStatus : Nat
  loopRecvStatus : Nat → Nat
  loopRecvByte : Nat → Nat
  tick : Nat → Nat

/-- Outcome of the do-while polling loop of `sd_card_enter_spi_mode`
(lines 55-60): either the `return SD_TIMEOUT` on line 59 fired, or the
loop condition `r1 != R1_IN_IDLE_STATE` became false and the loop exited
with the accumulated status.  `iters` counts executed loop-body
iterations. -/
inductive EnterLoopRes where
  | timedOut (iters : Nat)
  | exited (status : Nat) (iters : Nat)
deriving DecidableEq

/-- The do-while loop of `sd_card_enter_spi_mode`, lines 55-60 of
sd_driver_init.c: receive a byte (OR-ing its status), return
`SD_TIMEOUT` once more than 500 ticks have elapsed since `tickstart`,
and keep looping while the received byte differs from
`R1_IN_IDLE_STATE`.  Arguments: fuel, iteration index, accumulated
status. -/
def enterLoop (env : EnterEnv) (tickstart : Nat) :
    Nat → Nat → Nat → Option EnterLoopRes
  | 0, _, _ => none
  | fuel + 1, i, status =>
    if sub32 (env.tick (i + 1)) tickstart > 500 then
      some (.timedOut (i + 1))
    else if env.loopRecvByte i ≠ R1_IN_IDLE_STATE then
      enterLoop env tickstart fuel (i + 1) (status ||| env.loopRecvStatus i)
    else
      some (.exited (status ||| env.loopRecvStatus i) (i + 1))

/-- `sd_card_power_on` (lines 16-30): ten dummy transmissions plus one
flush receive, all their statuses OR-accumulated; the oracle supplies the
OR of those eleven transport statuses as one value. -/
def sd_card_power_on (env : EnterEnv) : Nat :=
  SD_OK ||| env.powerOnStatus

/-- `sd_card_enter_spi_mode` (lines 32-68).  `latch` is the function's
static `sd_card_is_spi_mode` flag, passed and returned explicitly.
Returns `(status, latch', trace)`: the returned `sd_error`, the new value
of the static flag, and the transport events performed.  If the latch is
already set the function returns `SD_OK` at once, performing no
transport I/O (empty trace).  The latch is set (line 64-65) only when
the whole sequence ran and the accumulated status is exactly `SD_OK`. -/
def sd_card_enter_spi_mode (env : EnterEnv) (latch : Bool) (fuel : Nat) :
    Option (Nat × Bool × List SdEv) :=
  if latch then
    some (SD_OK, latch, [])
  else
    let s := sd_card_power_on env
    if s ≠ 0 then
      some (s, latch, [SdEv.powerOn])
    else
      let status := s ||| env.goIdleTransmitStatus ||| env.firstRecvStatus
      let tickstart := env.tick 0
      match enterLoop env tickstart fuel 0 status with
      | none => none
      | some (.timedOut n) =>
        some (SD_TIMEOUT, latch,
          [SdEv.powerOn, SdEv.cmd 0] ++ List.replicate (n + 1) SdEv.recv)
      | some (.exited st n) =>
        some (st, st == SD_OK,
          [SdEv.powerOn, SdEv.cmd 0] ++ List.replicate (n + 1) SdEv.recv)

/-- Oracle for one run of `sd_card_crc_on_off`: the status delta the
`SEND_CMD` macro OR-accumulates (modelled from the spec, the macro lives
in the header which is not under src/: it transmits the frame, reads the
response, and ORs the transport status into the caller's status
variable), and the R1 response byte it stores. -/
structure CrcEnv where
  cmdStatus : Nat
  r1 : Nat

/-- `sd_card_crc_on_off` (lines 71-85): sends command 59 with argument
1/0; if the response is not `R1_IN_IDLE_STATE` returns
`SD_TRANSMISSION_ERROR` (discarding the accumulated status), otherwise
returns the accumulated status.  The command frame is transmitted in
both cases. -/
def sd_card_crc_on_off (env : CrcEnv) (crc_enable : Bool) :
    Nat × List SdEv :=
  let _ := crc_enable
  let status := SD_OK ||| env.cmdStatus
  if env.r1 ≠ R1_IN_IDLE_STATE then
    (SD_TRANSMISSION_ERROR, [SdEv.cmd 59])
  else
    (status, [SdEv.cmd 59])

/-- Oracle for one run of a negotiation variant
(`sd_card_v1_init_process` / `sd_card_v2_init_process`): `ocrStatus` is
the status delta of the `SEND_CMD` for command 58, `ocr0`/`ocr1`/`ocr2`
are bytes 0-2 of the `ocr_register_content` of its R3 response (byte 3
is never read by the source).  `appStatus i` / `opStatus i` are the
status deltas of the `SEND_CMD`s for commands 55 and 41 in the i-th loop
iteration, `opResp i` the R1 response of the i-th ACMD41, and `tick k`
the k-th `HAL_GetTick` value (k = 0 is `tickstart`). -/
structure NegEnv where
  ocrStatus : Nat
  ocr0 : Nat
  ocr1 : Nat
  ocr2 : Nat
  appStatus : Nat → Nat
  opStatus : Nat → Nat
  opResp : Nat → Nat
  tick : Nat → Nat

/-- Outcome of a negotiation polling loop: ready (all flags clear)
observed, illegal-command observed (v1 only), or the 1000ms deadline
exceeded. -/
inductive PollRes where
  | ready (status : Nat) (iters : Nat)
  | illegal (iters : Nat)
  | timedOut (iters : Nat)
deriving DecidableEq

/-- The ACMD41 polling loop of `sd_card_v1_init_process` (lines
110-123): each iteration sends command 55 then command 41 (OR-ing both
statuses), breaks when the response is `R1_CLEAR_FLAGS`, returns
`SD_UNUSABLE_CARD` when the response has `R1_ILLEGAL_COMMAND` set, and
returns `SD_TIMEOUT` once more than 1000 ticks have elapsed since
`tickstart`. -/
def v1Poll (env : NegEnv) (tickstart : Nat) :
    Nat → Nat → Nat → Option PollRes
  | 0, _, _ => none
  | fuel + 1, i, status =>
    if env.opResp i = R1_CLEAR_FLAGS then
      some (.ready (status ||| env.appStatus i ||| env.opStatus i) (i + 1))
    else if env.opResp i &&& R1_ILLEGAL_COMMAND ≠ 0 then
      some (.illegal (i + 1))
    else if sub32 (env.tick (i + 1)) tickstart > 1000 then
      some (.timedOut (i + 1))
    else
      v1Poll env tickstart fuel (i + 1)
        (status ||| env.appStatus i ||| env.opStatus i)

/-- Outcome of the v2 ACMD41 polling loop: unlike `PollRes` there is no
illegal-command exit, because the loop on lines 155-166 has no such
test. -/
inductive Poll2Res where
  | ready (status : Nat) (iters : Nat)
  | timedOut (iters : Nat)
deriving DecidableEq

/-- The ACMD41 polling loop of `sd_card_v2_init_process` (lines
155-166): identical to the v1 loop except that there is no
illegal-command test — the loop exits only on an all-flags-clear
response or on the 1000-tick deadline. -/
def v2Poll (env : NegEnv) (tickstart : Nat) :
    Nat → Nat → Nat → Option Poll2Res
  | 0, _, _ => none
  | fuel + 1, i, status =>
    if env.opResp i = R1_CLEAR_FLAGS then
      some (.ready (status ||| env.appStatus i ||| env.opStatus i) (i + 1))
    else if sub32 (env.tick (i + 1)) tickstart > 1000 then
      some (.timedOut (i + 1))
    else
      v2Poll env tickstart fuel (i + 1)
        (status ||| env.appStatus i ||| env.opStatus i)

/-- Trace of the commands the negotiation loop transmits in n
iterations: commands 55 and 41, in order, per iteration. -/
def pollTrace : Nat → List SdEv
  | 0 => []
  | n + 1 => pollTrace n ++ [SdEv.cmd 55, SdEv.cmd 41]

/-- `sd_card_v1_init_process` (lines 87-129).  Reads the OCR (command
58), fails with `SD_ERROR` if the 2.7-3.6V window bits
(`ocr[1] & 0x1f` nonzero and `ocr[2] & 0x80` nonzero) are not both set —
before any ACMD41 — and otherwise polls ACMD41.  On ready it records
version 1 / standard capacity in the session state; the
`SD_UNUSABLE_CARD` and `SD_TIMEOUT` returns discard the accumulated
status and leave the session state unchanged.  Returns
`(status, state', trace)`. -/
def sd_card_v1_init_process (env : NegEnv) (st : SdStatusState)
    (fuel : Nat) : Option (Nat × SdStatusState × List SdEv) :=
  let status := SD_OK ||| env.ocrStatus
  if ¬(env.ocr1 &&& 0x1f ≠ 0 ∧ env.ocr2 &&& 0x80 ≠ 0) then
    some (SD_ERROR, st, [SdEv.cmd 58])
  else
    let tickstart := env.tick 0
    match v1Poll env tickstart fuel 0 status with
    | none => none
    | some (.ready s n) =>
      some (s, { st with version := 1, capacity := SdCapacity.STANDART },
        SdEv.cmd 58 :: pollTrace n)
    | some (.illegal n) =>
      some (SD_UNUSABLE_CARD, st, SdEv.cmd 58 :: pollTrace n)
    | some (.timedOut n) =>
      some (SD_TIMEOUT, st, SdEv.cmd 58 :: pollTrace n)

/-- `sd_card_v2_init_process` (lines 131-176).  Same up-front voltage
check as v1 but failing with `SD_UNUSABLE_CARD`; then the illegal-blind
polling loop; on ready it tests `ocr[0] & 0x2` (the source's "Check CCS"
test) to choose high-or-extended vs standard capacity and records
version 2. -/
def sd_card_v2_init_process (env : NegEnv) (st : SdStatusState)
    (fuel : Nat) : Option (Nat × SdStatusState × List SdEv) :=
  let status := SD_OK ||| env.ocrStatus
  if ¬(env.ocr1 &&& 0x1f ≠ 0 ∧ env.ocr2 &&& 0x80 ≠ 0) then
    some (SD_UNUSABLE_CARD, st, [SdEv.cmd 58])
  else
    let tickstart := env.tick 0
    match v2Poll env tickstart fuel 0 status with
    | none => none
    | some (.ready s n) =>
      let cap := if env.ocr0 &&& 0x2 ≠ 0 then SdCapacity.HIGH_OR_EXTENDED
                 else SdCapacity.STANDART
      some (s, { st with capacity := cap, version := 2 },
        SdEv.cmd 58 :: pollTrace n)
    | some (.timedOut n) =>
      some (SD_TIMEOUT, st, SdEv.cmd 58 :: pollTrace n)

/-- Modelled from the spec: the `sd_r7_response` structure and the
`GET_VOLTAGE_FROM_R7` accessor from the header (not under src/).  Spec
section 6: the response is a status byte plus 4 bytes, of which the low
8 bits are the echoed check pattern and bits 11:8 are the
accepted-voltage-window field.  `high_order_part` is the leading R1
status byte (the source reads its illegal-command bit),
`echo_back_of_check_pattern` the echoed pattern byte, and `voltage` the
value `GET_VOLTAGE_FROM_R7` extracts. -/
structure R7 where
  high_order_part : Nat
  echo_back_of_check_pattern : Nat
  voltage : Nat
deriving DecidableEq

/-- Oracle for one run of `sd_card_reset`: the oracle of the
`sd_card_enter_spi_mode` call, the status delta and R7 response of the
`SEND_CMD` for command 8, the oracle of the `sd_card_crc_on_off` call,
and one negotiation oracle per negotiation call site (`negV1` feeds the
`sd_card_v1_init_process` call, `negV2` the `sd_card_v2_init_process`
call). -/
structure ResetEnv where
  enter : EnterEnv
  ifCondStatus : Nat
  ifCond : R7
  crc : CrcEnv
  negV1 : NegEnv
  negV2 : NegEnv

/-- `sd_card_reset` (lines 180-219).  Orchestrates: enter SPI mode
(early exit on failure), send the interface condition, command 8 (early
exit on transport failure), unconditionally run `sd_card_crc_on_off`,
then branch on the illegal-command bit of the R7 status byte: if set run
the v1 negotiation, otherwise validate check pattern (0x55) and voltage
(0x1) — OR-ing in `SD_UNUSABLE_CARD` on mismatch — and run the v2
negotiation.  Every path ends at `end_of_initialization`, which stores
`(bool)status` into the session's `error_in_initialization` flag.
Returns `(status, latch', state', trace)`. -/
def sd_card_reset (env : ResetEnv) (latch : Bool) (crc_enable : Bool)
    (st : SdStatusState) (fuel : Nat) :
    Option (Nat × Bool × SdStatusState × List SdEv) :=
  match sd_card_enter_spi_mode env.enter latch fuel with
  | none => none
  | some (s0, latch', tr0) =>
    if s0 ≠ 0 then
      some (s0, latch', { st with error_in_initialization := s0 != 0 }, tr0)
    else
      let status := s0 ||| env.ifCondStatus
      let tr := tr0 ++ [SdEv.cmd 8]
      if status ≠ 0 then
        some (status, latch',
          { st with error_in_initialization := status != 0 }, tr)
      else
        let crcRes := sd_card_crc_on_off env.crc crc_enable
        let status := status ||| crcRes.1
        let tr := tr ++ crcRes.2
        if env.ifCond.high_order_part &&& R1_ILLEGAL_COMMAND ≠ 0 then
          match sd_card_v1_init_process env.negV1 st fuel with
          | none => none
          | some (s1, st1, tr1) =>
            let status := status ||| s1
            some (status, latch',
              { st1 with error_in_initialization := status != 0 }, tr ++ tr1)
        else
          if ¬(env.ifCond.echo_back_of_check_pattern = 0x55 ∧
              env.ifCond.voltage = 0x1) then
            let status := status ||| SD_UNUSABLE_CARD
            some (status, latch',
              { st with error_in_initialization := status != 0 }, tr)
          else
            match sd_card_v2_init_process env.negV2 st fuel with
            | none => none
            | some (s2, st2, tr2) =>
              let status := status ||| s2
              some (status, latch',
                { st2 with error_in_initialization := status != 0 },
                tr ++ tr2)

/-- Oracle for one run of `sd_card_get_common_info`: the status returned
by the external `sd_card_get_csd` collaborator and the 16 CSD bytes it
stores (indexed 0-15; the source reads indices 3-9). -/
structure CsdEnv where
  getCsdStatus : Nat
  csd : Nat → Nat

/-- The geometry result `sd_info` (modelled from the spec where the
header is missing): the fields the source computes on lines 239-262.
The float-valued `max_transfer_speed` field (a product of two float
lookup tables) is outside the integer claims and is not modelled;
`max_data_block_size` is `powf(2, csd[5] & 0xf)`, exact for the 4-bit
exponent, hence a `Nat`; the spec gives the size formulas without any
truncation, so `size` is an unbounded `Nat`. -/
structure SdInfo where
  command_classes : Nat
  max_data_block_size : Nat
  partial_blocks_allowed : Nat
  size : Nat
deriving DecidableEq

/-- `sd_card_get_common_info` (lines 221-265).  Requests the CSD
register (early return of the collaborator's status on failure, with the
output structure untouched — modelled as `none`), decodes command
classes, block size and the partial-block flag, then: if the session
version equals 1, decodes `size_mult` from byte 9 and `device_size` as
`(csd[6] & 0x3) << 11 | csd[7] << 2 | (csd[8] & 0xc0) >> 6` and sets
size = (device_size + 1) * 2^(size_mult + 2) * max_data_block_size;
in every other case (version 2 — but also version 0, there is no
unset-version check) decodes the 22-bit `c_size` from bytes 7-9 and sets
size = (c_size + 1) * 512.  Returns `(status, decoded info?)`. -/
def sd_card_get_common_info (env : CsdEnv) (st : SdStatusState) :
    Nat × Option SdInfo :=
  if env.getCsdStatus ≠ 0 then
    (env.getCsdStatus, none)
  else
    let max_data_block_size := 2 ^ (env.csd 5 &&& 0xf)
    let info0 : SdInfo :=
      { command_classes := env.csd 4 <<< 4 ||| (env.csd 5 &&& 0xf0) >>> 4
        max_data_block_size := max_data_block_size
        partial_blocks_allowed := env.csd 6 &&& 0x80
        size := 0 }
    if st.version = 1 then
      let size_mult := (env.csd 9 &&& 0xe0) >>> 5
      let mult := 2 ^ (size_mult + 2)
      let device_size := (env.csd 6 &&& 0x3) <<< 11 |||
        env.csd 7 <<< 2 ||| (env.csd 8 &&& 0xc0) >>> 6
      let blocknr := (device_size + 1) * mult
      (SD_OK, some { info0 with size := blocknr * max_data_block_size })
    else
      let c_size := (env.csd 7 &&& 0x3f) <<< 16 |||
        env.csd 8 <<< 8 ||| env.csd 9
      (SD_OK, some { info0 with size := (c_size + 1) * 512 })

/-- Follows the spec's words, for comparison with the source (not a
translation of the code): the 12-bit version-1 device-size field
"scattered over CSD bytes 6-8" — 2 bits from byte 6, 8 bits from byte 7,
2 bits from byte 8, assembled contiguously. -/
def deviceSizeSpec (csd : Nat → Nat) : Nat :=
  (csd 6 &&& 0x3) <<< 10 ||| csd 7 <<< 2 ||| (csd 8 &&& 0xc0) >>> 6

/-- Follows the spec's words: the 3-bit size-multiplier field in CSD
byte 9. -/
def sizeMultSpec (csd : Nat → Nat) : Nat :=
  (csd 9 &&& 0xe0) >>> 5

/-! Concrete oracle instances used by the counterexamples and
witnesses below. -/

/-- A transport for mode entry where every operation succeeds and the
card answers `R1_IN_IDLE_STATE` at once, with a frozen clock. -/
def enterEnvOk : EnterEnv :=
  { powerOnStatus := 0
    goIdleTransmitStatus := 0
    firstRecvStatus := 0
    loopRecvStatus := fun _ => 0
    loopRecvByte := fun _ => R1_IN_IDLE_STATE
    tick := fun _ => 0 }

/-- A transport for mode entry where the card never answers
`R1_IN_IDLE_STATE` and the clock advances 1000 ticks per reading, so the
500ms deadline fires on the first loop iteration. -/
def enterEnvTimeoutW : EnterEnv :=
  { powerOnStatus := 0
    goIdleTransmitStatus := 0
    firstRecvStatus := 0
    loopRecvStatus := fun _ => 0
    loopRecvByte := fun _ => 0
    tick := fun k => 1000 * k }

/-- A negotiation oracle where everything succeeds: voltage window bits
set, first ACMD41 answers all-flags-clear, OCR byte 0 is 0. -/
def negEnvReady : NegEnv :=
  { ocrStatus := 0
    ocr0 := 0
    ocr1 := 0x1f
    ocr2 := 0x80
    appStatus := fun _ => 0
    opStatus := fun _ => 0
    opResp := fun _ => R1_CLEAR_FLAGS
    tick := fun _ => 0 }

/-- A fully trivial negotiation oracle (all zero).  Note its OCR voltage
bytes are 0, so the up-front voltage-window check fails on it. -/
def negEnvTriv : NegEnv :=
  { ocrStatus := 0
    ocr0 := 0
    ocr1 := 0
    ocr2 := 0
    appStatus := fun _ => 0
    opStatus := fun _ => 0
    opResp := fun _ => R1_CLEAR_FLAGS
    tick := fun _ => 0 }

/-- A negotiation oracle where the command-58 exchange reports a
transmission error (`ocrStatus = SD_TRANSMISSION_ERROR`), the voltage
window is accepted, the card answers only in-idle-state to every ACMD41,
and the clock advances 2000 ticks per reading, so the 1000ms deadline
fires on the first iteration. -/
def negEnvLostBit : NegEnv :=
  { ocrStatus := SD_TRANSMISSION_ERROR
    ocr0 := 0
    ocr1 := 0x1f
    ocr2 := 0x80
    appStatus := fun _ => 0
    opStatus := fun _ => 0
    opResp := fun _ => R1_IN_IDLE_STATE
    tick := fun k => 2000 * k }

/-- A v2 negotiation oracle whose OCR byte 0 is 0x40: the CCS bit (OCR
bit 30, i.e. bit 6 of the most-significant OCR byte) is set, every other
OCR byte-0 bit clear; the card becomes ready on the first ACMD41. -/
def negEnvC3 : NegEnv :=
  { ocrStatus := 0
    ocr0 := 0x40
    ocr1 := 0x1f
    ocr2 := 0x80
    appStatus := fun _ => 0
    opStatus := fun _ => 0
    opResp := fun _ => R1_CLEAR_FLAGS
    tick := fun _ => 0 }

/-- A negotiation oracle whose OCR voltage-window bytes are both zero,
so the up-front voltage check fails. -/
def negEnvBadVolt : NegEnv :=
  { ocrStatus := 0
    ocr0 := 0
    ocr1 := 0
    ocr2 := 0
    appStatus := fun _ => 0
    opStatus := fun _ => 0
    opResp := fun _ => R1_IN_IDLE_STATE
    tick := fun _ => 0 }

/-- A negotiation oracle whose every ACMD41 response is exactly
`R1_ILLEGAL_COMMAND` (0x04). -/
def negEnvIllegal : NegEnv :=
  { ocrStatus := 0
    ocr0 := 0
    ocr1 := 0x1f
    ocr2 := 0x80
    appStatus := fun _ => 0
    opStatus := fun _ => 0
    opResp := fun _ => R1_ILLEGAL_COMMAND
    tick := fun _ => 0 }

/-- A reset oracle simulating an earlier-revision (v1) card whose
interface-condition R1 has the illegal-command bit set, with the
`SEND_CMD` exchange for command 58 reporting a transmission error and
the ACMD41 polling then timing out (`negEnvLostBit`).  The SPI-mode
latch is passed as already set, so mode entry short-circuits. -/
def resetEnvC2 : ResetEnv :=
  { enter := enterEnvOk
    ifCondStatus := 0
    ifCond := ⟨R1_ILLEGAL_COMMAND, 0, 0⟩
    crc := ⟨0, R1_IN_IDLE_STATE⟩
    negV1 := negEnvLostBit
    negV2 := negEnvTriv }

/-- A reset oracle simulating an earlier-revision (v1) card (illegal
command on the interface condition) whose v1 negotiation succeeds at
once. -/
def resetEnvC4 : ResetEnv :=
  { enter := enterEnvOk
    ifCondStatus := 0
    ifCond := ⟨R1_ILLEGAL_COMMAND, 0, 0⟩
    crc := ⟨0, R1_IN_IDLE_STATE⟩
    negV1 := negEnvReady
    negV2 := negEnvTriv }

/-- A CSD oracle where the register read succeeds and every CSD byte is
zero. -/
def csdEnvC1 : CsdEnv :=
  { getCsdStatus := 0
    csd := fun _ => 0 }

/-- A CSD oracle for a version-1 card with block-length exponent 9
(csd[5] = 0x09, block size 512), the low 2 bits of csd[6] equal to 1
(the top 2 bits of the 12-bit device-size field), csd[7] = csd[8] = 0
(the remaining 10 device-size bits all zero), and csd[9] = 0
(size_mult = 0). -/
def csdEnvC5 : CsdEnv :=
  { getCsdStatus := 0
    csd := fun i => if i = 5 then 0x09 else if i = 6 then 0x01 else 0 }

/-! Bitwise helper lemmas about the OR-accumulated status words. -/

theorem and_lor_right (a b m : Nat) :
    (a ||| b) &&& m = (a &&& m) ||| (b &&& m) := by
  apply Nat.eq_of_testBit_eq
  intro i
  simp only [Nat.testBit_and, Nat.testBit_or]
  cases a.testBit i <;> cases b.testBit i <;> cases m.testBit i <;> rfl

theorem clean_lor {a b m : Nat} (ha : a &&& m = 0) (hb : b &&& m = 0) :
    (a ||| b) &&& m = 0 := by
  rw [and_lor_right, ha, hb]
  rfl

theorem lor_right_absorb (x a : Nat) : a ||| (x ||| a) = x ||| a := by
  apply Nat.eq_of_testBit_eq
  intro i
  simp only [Nat.testBit_or]
  cases a.testBit i <;> cases x.testBit i <;> rfl

theorem lor_mid_absorb (y a b : Nat) :
    a ||| ((y ||| a) ||| b) = (y ||| a) ||| b := by
  apply Nat.eq_of_testBit_eq
  intro i
  simp only [Nat.testBit_or]
  cases a.testBit i <;> cases y.testBit i <;> cases b.testBit i <;> rfl

/-- The CRC on/off command frame (command 59) is transmitted on both
exit paths of `sd_card_crc_on_off`. -/
theorem sd_card_crc_on_off_trace (env : CrcEnv) (ce : Bool) :
    (sd_card_crc_on_off env ce).2 = [SdEv.cmd 59] := by
  unfold sd_card_crc_on_off
  split <;> rfl

/-- C1: counterexample to the claim that `sd_card_get_common_info`
called before any successful reset (session version still 0) fails with
an error.  With version 0 and a successful CSD read of an all-zero
register, the function returns `SD_OK` (which is 0, the no-error value)
and a fully decoded geometry — it does not fail. -/
theorem c1_geometry_before_reset_counterexample :
    sd_card_get_common_info csdEnvC1 ⟨0, SdCapacity.STANDART, false⟩ =
      (SD_OK, some ⟨0, 1, 0, 512⟩) ∧
    SD_OK = 0 :=
  ⟨rfl, rfl⟩

/-- C1 (amended): when the session version is unset (0),
`sd_card_get_common_info` does not fail on that account; it behaves
exactly as for a version-2 session — it takes the else branch of the
version test and decodes the CSD — and returns `SD_OK` whenever the CSD
read itself succeeds. -/
theorem c1_geometry_before_reset_amended (env : CsdEnv) (c : SdCapacity)
    (e : Bool) :
    sd_card_get_common_info env ⟨0, c, e⟩ =
      sd_card_get_common_info env ⟨2, c, e⟩ ∧
    (env.getCsdStatus = 0 →
      (sd_card_get_common_info env ⟨0, c, e⟩).1 = SD_OK) := by
  constructor
  · by_cases h : env.getCsdStatus ≠ 0 <;>
      simp [sd_card_get_common_info, h]
  · intro h0
    simp [sd_card_get_common_info, h0]

/-- C1 witness: the amended statement applied at the all-zero CSD
oracle. -/
theorem c1_geometry_before_reset_witness :
    sd_card_get_common_info csdEnvC1 ⟨0, SdCapacity.STANDART, false⟩ =
      sd_card_get_common_info csdEnvC1 ⟨2, SdCapacity.STANDART, false⟩ ∧
    (sd_card_get_common_info csdEnvC1 ⟨0, SdCapacity.STANDART, false⟩).1 =
      SD_OK :=
  ⟨(c1_geometry_before_reset_amended csdEnvC1 SdCapacity.STANDART false).1,
   (c1_geometry_before_reset_amended csdEnvC1 SdCapacity.STANDART false).2
     rfl⟩

/-- C3: evaluation of the v2 negotiation at the failing input.  With
OCR byte 0 equal to 0x40 (the CCS bit, OCR bit 30, set and nothing
else), the source records capacity STANDART, because line 169 tests
`ocr_response.ocr_register_content[0] & 0x2` (OCR bit 25, a reserved
bit) instead of the CCS bit 0x40 it says it checks. -/
theorem c3_ccs_bit_code_eval :
    sd_card_v2_init_process negEnvC3 initialStatus 5 =
      some (SD_OK, ⟨2, SdCapacity.STANDART, false⟩,
        [SdEv.cmd 58, SdEv.cmd 55, SdEv.cmd 41]) ∧
    negEnvC3.ocr0 = 0x40 ∧
    SdCapacity.STANDART ≠ SdCapacity.HIGH_OR_EXTENDED :=
  ⟨rfl, rfl, by decide⟩

/-- C4: counterexample to the claim that on the illegal-command branch
the orchestrator never issues the CRC on/off command.  For a simulated
earlier-revision card (illegal-command set in the interface-condition
status byte), the reset trace contains the command-59 frame: line 197
of the source calls `sd_card_crc_on_off` before the branch on the
illegal-command flag, so the CRC command is issued on both branches. -/
theorem c4_crc_branch_counterexample :
    sd_card_reset resetEnvC4 true false initialStatus 5 =
      some (SD_OK, true, ⟨1, SdCapacity.STANDART, false⟩,
        [SdEv.cmd 8, SdEv.cmd 59, SdEv.cmd 58, SdEv.cmd 55, SdEv.cmd 41]) ∧
    resetEnvC4.ifCond.high_order_part &&& R1_ILLEGAL_COMMAND ≠ 0 ∧
    SdEv.cmd 59 ∈
      [SdEv.cmd 8, SdEv.cmd 59, SdEv.cmd 58, SdEv.cmd 55, SdEv.cmd 41] :=
  ⟨rfl, by decide, by decide⟩

/-- C5: evaluation of the geometry decode at the failing input.  For a
version-1 session and a CSD whose byte 6 has its low device-size bits
equal to 1 (csd[6] = 0x01, csd[7] = csd[8] = 0, size_mult = 0, block
exponent 9), the source computes size 4196352 = (2048+1)*4*512, because
line 251 shifts the top two device-size bits by 11; the 12-bit
device-size field of the claim gives (1024+1)*4*512 = 2099200. -/
theorem c5_csd_size_decode_code_eval :
    sd_card_get_common_info csdEnvC5 ⟨1, SdCapacity.STANDART, false⟩ =
      (SD_OK, some ⟨0, 512, 0, 4196352⟩) ∧
    (deviceSizeSpec csdEnvC5.csd + 1) * 2 ^ (sizeMultSpec csdEnvC5.csd + 2) *
      2 ^ (csdEnvC5.csd 5 &&& 0xf) = 2099200 ∧
    (4196352 : Nat) ≠ 2099200 :=
  ⟨rfl, rfl, by decide⟩

/-- C7: when the up-front OCR voltage-window check fails (the
`ocr[1] & 0x1f` bits or the `ocr[2] & 0x80` bit all clear), both
negotiation variants return before any ACMD41 polling — the trace holds
only the command-58 frame, no command 55 or 41 — with the v1 variant
returning the generic `SD_ERROR` and the v2 variant returning
`SD_UNUSABLE_CARD`, both leaving the session state unchanged. -/
theorem c7_voltage_check_failure (env : NegEnv) (st : SdStatusState)
    (fuel : Nat)
    (hv : env.ocr1 &&& 0x1f = 0 ∨ env.ocr2 &&& 0x80 = 0) :
    sd_card_v1_init_process env st fuel =
      some (SD_ERROR, st, [SdEv.cmd 58]) ∧
    sd_card_v2_init_process env st fuel =
      some (SD_UNUSABLE_CARD, st, [SdEv.cmd 58]) := by
  have h : ¬(env.ocr1 &&& 0x1f ≠ 0 ∧ env.ocr2 &&& 0x80 ≠ 0) := by
    rcases hv with h | h <;> simp [h]
  constructor
  · simp [sd_card_v1_init_process, h]
  · simp [sd_card_v2_init_process, h]

/-- Characterization of `sd_card_reset` once the result of the
`sd_card_enter_spi_mode` call is known: the body of the orchestrator
with the mode-entry result substituted in. -/
theorem sd_card_reset_eq (env : ResetEnv) (latch ce : Bool)
    (st : SdStatusState) (fuel : Nat) (s0 : Nat) (l0 : Bool)
    (t0 : List SdEv)
    (he : sd_card_enter_spi_mode env.enter latch fuel = some (s0, l0, t0)) :
    sd_card_reset env latch ce st fuel =
      if s0 ≠ 0 then
        some (s0, l0, { st with error_in_initialization := s0 != 0 }, t0)
      else if s0 ||| env.ifCondStatus ≠ 0 then
        some (s0 ||| env.ifCondStatus, l0,
          { st with
            error_in_initialization := (s0 ||| env.ifCondStatus) != 0 },
          t0 ++ [SdEv.cmd 8])
      else if env.ifCond.high_order_part &&& R1_ILLEGAL_COMMAND ≠ 0 then
        match sd_card_v1_init_process env.negV1 st fuel with
        | none => none
        | some (s1, st1, tr1) =>
          some ((s0 ||| env.ifCondStatus) |||
              (sd_card_crc_on_off env.crc ce).1 ||| s1, l0,
            { st1 with
              error_in_initialization := ((s0 ||| env.ifCondStatus) |||
                (sd_card_crc_on_off env.crc ce).1 ||| s1) != 0 },
            ((t0 ++ [SdEv.cmd 8]) ++ (sd_card_crc_on_off env.crc ce).2) ++
              tr1)
      else if ¬(env.ifCond.echo_back_of_check_pattern = 0x55 ∧
          env.ifCond.voltage = 0x1) then
        some ((s0 ||| env.ifCondStatus) |||
            (sd_card_crc_on_off env.crc ce).1 ||| SD_UNUSABLE_CARD, l0,
          { st with
            error_in_initialization := ((s0 ||| env.ifCondStatus) |||
              (sd_card_crc_on_off env.crc ce).1 ||| SD_UNUSABLE_CARD) != 0 },
          (t0 ++ [SdEv.cmd 8]) ++ (sd_card_crc_on_off env.crc ce).2)
      else
        match sd_card_v2_init_process env.negV2 st fuel with
        | none => none
        | some (s2, st2, tr2) =>
          some ((s0 ||| env.ifCondStatus) |||
              (sd_card_crc_on_off env.crc ce).1 ||| s2, l0,
            { st2 with
              error_in_initialization := ((s0 ||| env.ifCondStatus) |||
                (sd_card_crc_on_off env.crc ce).1 ||| s2) != 0 },
            ((t0 ++ [SdEv.cmd 8]) ++ (sd_card_crc_on_off env.crc ce).2) ++
              tr2) := by
  rw [sd_card_reset, he]

/-- C7 witness: the theorem applied at a concrete oracle whose OCR
voltage bytes are zero. -/
theorem c7_voltage_check_failure_witness :
    sd_card_v1_init_process negEnvBadVolt initialStatus 5 =
      some (SD_ERROR, initialStatus, [SdEv.cmd 58]) ∧
    sd_card_v2_init_process negEnvBadVolt initialStatus 5 =
      some (SD_UNUSABLE_CARD, initialStatus, [SdEv.cmd 58]) :=
  c7_voltage_check_failure negEnvBadVolt initialStatus 5 (Or.inl rfl)

/-- C2: counterexample to the claim that the status `sd_card_reset`
returns is the bitwise-OR of every status observed along the executed
path.  In the run over `resetEnvC2`, the `SEND_CMD` exchange for command
58 inside `sd_card_v1_init_process` observes `SD_TRANSMISSION_ERROR`
(bit 4, OR-accumulated into the local status on line 100), but the
polling loop then times out and line 122 executes the bare
`return SD_TIMEOUT`, discarding the accumulated status: the final
result is exactly `SD_TIMEOUT`, which does not contain the observed
transmission-error bit. -/
theorem c2_reset_status_or_counterexample :
    sd_card_reset resetEnvC2 true false initialStatus 5 =
      some (SD_TIMEOUT, true, ⟨0, SdCapacity.STANDART, true⟩,
        [SdEv.cmd 8, SdEv.cmd 59, SdEv.cmd 58, SdEv.cmd 55, SdEv.cmd 41]) ∧
    resetEnvC2.negV1.ocrStatus = SD_TRANSMISSION_ERROR ∧
    SD_TIMEOUT &&& SD_TRANSMISSION_ERROR = 0 :=
  ⟨rfl, rfl, rfl⟩

/-- C2 (amended): the orchestrator itself loses no bit that its
sub-steps return to it — every status value returned to
`sd_card_reset` by `sd_card_enter_spi_mode`, the interface-condition
`SEND_CMD`, `sd_card_crc_on_off` and the executed negotiation variant
is contained (bitwise) in the final result.  What the original claim
gets wrong is the statuses observed inside a sub-step before one of its
bare early error returns (`return SD_TIMEOUT`, `return SD_ERROR`,
`return SD_UNUSABLE_CARD`, `return SD_TRANSMISSION_ERROR`): those
bits are discarded by the sub-step and never reach the final result. -/
theorem c2_reset_status_or_amended (env : ResetEnv) (latch ce : Bool)
    (st : SdStatusState) (fuel : Nat) (r : Nat) (l' : Bool)
    (st' : SdStatusState) (tr : List SdEv) (s0 : Nat) (l0 : Bool)
    (t0 : List SdEv)
    (hr : sd_card_reset env latch ce st fuel = some (r, l', st', tr))
    (he : sd_card_enter_spi_mode env.enter latch fuel = some (s0, l0, t0)) :
    s0 ||| r = r ∧
    (s0 = 0 → env.ifCondStatus ||| r = r) ∧
    (s0 = 0 → env.ifCondStatus = 0 →
      (sd_card_crc_on_off env.crc ce).1 ||| r = r ∧
      (env.ifCond.high_order_part &&& R1_ILLEGAL_COMMAND ≠ 0 →
        ∀ s1 st1 tr1,
          sd_card_v1_init_process env.negV1 st fuel = some (s1, st1, tr1) →
          s1 ||| r = r) ∧
      (env.ifCond.high_order_part &&& R1_ILLEGAL_COMMAND = 0 →
        (¬(env.ifCond.echo_back_of_check_pattern = 0x55 ∧
            env.ifCond.voltage = 0x1) →
          SD_UNUSABLE_CARD ||| r = r) ∧
        ((env.ifCond.echo_back_of_check_pattern = 0x55 ∧
            env.ifCond.voltage = 0x1) →
          ∀ s2 st2 tr2,
            sd_card_v2_init_process env.negV2 st fuel =
              some (s2, st2, tr2) →
            s2 ||| r = r))) := by
  rw [sd_card_reset_eq env latch ce st fuel s0 l0 t0 he] at hr
  by_cases hs0 : s0 ≠ 0
  · rw [if_pos hs0] at hr
    obtain ⟨rfl, -, -, -⟩ :
        s0 = r ∧ l0 = l' ∧
          ({ st with error_in_initialization := s0 != 0 } : SdStatusState) =
            st' ∧ t0 = tr := by
      injection hr with h1
      injection h1 with h2 h3
      injection h3 with h4 h5
      injection h5 with h6 h7
      exact ⟨h2, h4, h6, h7⟩
    refine ⟨Nat.or_self s0, fun h0 => absurd h0 hs0, fun h0 => absurd h0 hs0⟩
  · push_neg at hs0
    subst hs0
    rw [if_neg (by simp)] at hr
    by_cases hic : (0 : Nat) ||| env.ifCondStatus ≠ 0
    · rw [if_pos hic] at hr
      obtain ⟨rfl, -, -, -⟩ :
          (0 : Nat) ||| env.ifCondStatus = r ∧ l0 = l' ∧
            ({ st with
              error_in_initialization :=
                ((0 : Nat) ||| env.ifCondStatus) != 0 } : SdStatusState) =
              st' ∧ t0 ++ [SdEv.cmd 8] = tr := by
        injection hr with h1
        injection h1 with h2 h3
        injection h3 with h4 h5
        injection h5 with h6 h7
        exact ⟨h2, h4, h6, h7⟩
      have hic' : env.ifCondStatus ≠ 0 := by simpa using hic
      refine ⟨by simp, fun _ => by simp [Nat.or_self], fun _ h => absurd h hic'⟩
    · push_neg at hic
      have hic0 : env.ifCondStatus = 0 := by simpa using hic
      rw [if_neg (by simp [hic])] at hr
      by_cases hill : env.ifCond.high_order_part &&& R1_ILLEGAL_COMMAND ≠ 0
      · rw [if_pos hill] at hr
        rcases hv1 : sd_card_v1_init_process env.negV1 st fuel with
          _ | ⟨s1, st1, tr1⟩
        · rw [hv1] at hr; exact absurd hr (by simp)
        · rw [hv1] at hr
          obtain ⟨rfl, -, -, -⟩ :
              ((0 : Nat) ||| env.ifCondStatus) |||
                  (sd_card_crc_on_off env.crc ce).1 ||| s1 = r ∧
                l0 = l' ∧
                ({ st1 with
                  error_in_initialization :=
                    (((0 : Nat) ||| env.ifCondStatus) |||
                      (sd_card_crc_on_off env.crc ce).1 ||| s1) != 0 } :
                  SdStatusState) = st' ∧
                ((t0 ++ [SdEv.cmd 8]) ++
                  (sd_card_crc_on_off env.crc ce).2) ++ tr1 = tr := by
            injection hr with h1
            injection h1 with h2 h3
            injection h3 with h4 h5
            injection h5 with h6 h7
            exact ⟨h2, h4, h6, h7⟩
          refine ⟨by simp, fun _ => by simp [hic0], fun _ _ =>
            ⟨lor_mid_absorb _ _ _, fun _ s1' st1' tr1' hv1' => ?_,
              fun h => absurd hill (by simp [h])⟩⟩
          obtain ⟨rfl, -, -⟩ :
              s1 = s1' ∧ st1 = st1' ∧ tr1 = tr1' := by
            injection hv1' with h1
            injection h1 with h2 h3
            injection h3 with h4 h5
            exact ⟨h2, h4, h5⟩
          exact lor_right_absorb _ _
      · push_neg at hill
        rw [if_neg (by simp [hill])] at hr
        by_cases hpat : ¬(env.ifCond.echo_back_of_check_pattern = 0x55 ∧
            env.ifCond.voltage = 0x1)
        · rw [if_pos hpat] at hr
          obtain ⟨rfl, -, -, -⟩ :
              ((0 : Nat) ||| env.ifCondStatus) |||
                  (sd_card_crc_on_off env.crc ce).1 ||| SD_UNUSABLE_CARD =
                  r ∧
                l0 = l' ∧
                ({ st with
                  error_in_initialization :=
                    (((0 : Nat) ||| env.ifCondStatus) |||
                      (sd_card_crc_on_off env.crc ce).1 |||
                      SD_UNUSABLE_CARD) != 0 } : SdStatusState) = st' ∧
                (t0 ++ [SdEv.cmd 8]) ++
                  (sd_card_crc_on_off env.crc ce).2 = tr := by
            injection hr with h1
            injection h1 with h2 h3
            injection h3 with h4 h5
            injection h5 with h6 h7
            exact ⟨h2, h4, h6, h7⟩
          exact ⟨by simp, fun _ => by simp [hic0], fun _ _ =>
            ⟨lor_mid_absorb _ _ _, fun h => absurd h (by simp [hill]),
              fun _ => ⟨fun _ => lor_right_absorb _ _,
                fun h => absurd h hpat⟩⟩⟩
        · push_neg at hpat
          rw [if_neg (by simp [hpat.1, hpat.2])] at hr
          rcases hv2 : sd_card_v2_init_process env.negV2 st fuel with
            _ | ⟨s2, st2, tr2⟩
          · rw [hv2] at hr; exact absurd hr (by simp)
          · rw [hv2] at hr
            obtain ⟨rfl, -, -, -⟩ :
                ((0 : Nat) ||| env.ifCondStatus) |||
                    (sd_card_crc_on_off env.crc ce).1 ||| s2 = r ∧
                  l0 = l' ∧
                  ({ st2 with
                    error_in_initialization :=
                      (((0 : Nat) ||| env.ifCondStatus) |||
                        (sd_card_crc_on_off env.crc ce).1 ||| s2) != 0 } :
                    SdStatusState) = st' ∧
                  ((t0 ++ [SdEv.cmd 8]) ++
                    (sd_card_crc_on_off env.crc ce).2) ++ tr2 = tr := by
              injection hr with h1
              injection h1 with h2 h3
              injection h3 with h4 h5
              injection h5 with h6 h7
              exact ⟨h2, h4, h6, h7⟩
            refine ⟨by simp, fun _ => by simp [hic0], fun _ _ =>
              ⟨lor_mid_absorb _ _ _, fun h => absurd hill (by simp [h]),
                fun _ => ⟨fun h => absurd hpat h, fun _ s2' st2' tr2' hv2' =>
                  ?_⟩⟩⟩
            obtain ⟨rfl, -, -⟩ :
                s2 = s2' ∧ st2 = st2' ∧ tr2 = tr2' := by
              injection hv2' with h1
              injection h1 with h2 h3
              injection h3 with h4 h5
              exact ⟨h2, h4, h5⟩
            exact lor_right_absorb _ _

/-- C2 witness: the amended theorem applied to the concrete
`resetEnvC2` run, whose mode-entry step returned `SD_OK`. -/
theorem c2_reset_status_or_witness : SD_OK ||| SD_TIMEOUT = SD_TIMEOUT :=
  (c2_reset_status_or_amended resetEnvC2 true false initialStatus 5
    SD_TIMEOUT true ⟨0, SdCapacity.STANDART, true⟩
    [SdEv.cmd 8, SdEv.cmd 59, SdEv.cmd 58, SdEv.cmd 55, SdEv.cmd 41]
    SD_OK true [] rfl rfl).1

/-- On the illegal-command branch (mode entry returned 0, the
interface-condition exchange reported status 0, and the R7 status byte
has the illegal-command bit set), `sd_card_reset` is the composition of
the CRC on/off call with the v1 negotiation. -/
theorem sd_card_reset_illegal (env : ResetEnv) (latch ce : Bool)
    (st : SdStatusState) (fuel : Nat) (l0 : Bool) (t0 : List SdEv)
    (he : sd_card_enter_spi_mode env.enter latch fuel = some (0, l0, t0))
    (hifc : env.ifCondStatus = 0)
    (hill : env.ifCond.high_order_part &&& R1_ILLEGAL_COMMAND ≠ 0) :
    sd_card_reset env latch ce st fuel =
      match sd_card_v1_init_process env.negV1 st fuel with
      | none => none
      | some (s1, st1, tr1) =>
        some (((0 : Nat) ||| env.ifCondStatus) |||
            (sd_card_crc_on_off env.crc ce).1 ||| s1, l0,
          { st1 with
            error_in_initialization := (((0 : Nat) ||| env.ifCondStatus) |||
              (sd_card_crc_on_off env.crc ce).1 ||| s1) != 0 },
          ((t0 ++ [SdEv.cmd 8]) ++ (sd_card_crc_on_off env.crc ce).2) ++
            tr1) := by
  rw [sd_card_reset_eq env latch ce st fuel 0 l0 t0 he, if_neg (by simp),
    if_neg (by simp [hifc]), if_pos hill]

/-- C4 (amended): when the interface-condition response has the
illegal-command flag set, the orchestrator runs the earlier-revision
negotiation exclusively — the result is independent of the check
pattern and voltage fields of the response and of the v2 negotiation
oracle, so the check-pattern/voltage validation and the later-revision
negotiation are never consulted — but the CRC on/off command is issued
on this branch too: line 197 of the source calls `sd_card_crc_on_off`
unconditionally before the branch (and hence, on the clear branch,
before the check-pattern/voltage validation, not after), so the trace
holds the command-59 frame between the interface-condition frame and
the v1 negotiation frames, and its result is OR-ed into the final
status. -/
theorem c4_v1_branch_exclusive_amended (env : ResetEnv) (latch ce : Bool)
    (st : SdStatusState) (fuel : Nat) (l0 : Bool) (t0 : List SdEv)
    (hill : env.ifCond.high_order_part &&& R1_ILLEGAL_COMMAND ≠ 0)
    (he : sd_card_enter_spi_mode env.enter latch fuel = some (0, l0, t0))
    (hifc : env.ifCondStatus = 0) :
    (∀ echo volt neg2,
      sd_card_reset
        { env with ifCond := ⟨env.ifCond.high_order_part, echo, volt⟩,
                   negV2 := neg2 } latch ce st fuel =
        sd_card_reset env latch ce st fuel) ∧
    (∀ r l' st' tr,
      sd_card_reset env latch ce st fuel = some (r, l', st', tr) →
      ∃ s1 st1 tr1,
        sd_card_v1_init_process env.negV1 st fuel = some (s1, st1, tr1) ∧
        tr = ((t0 ++ [SdEv.cmd 8]) ++ [SdEv.cmd 59]) ++ tr1 ∧
        r = ((0 : Nat) ||| env.ifCondStatus) |||
          (sd_card_crc_on_off env.crc ce).1 ||| s1) := by
  constructor
  · intro echo volt neg2
    rw [sd_card_reset_illegal
        { env with ifCond := ⟨env.ifCond.high_order_part, echo, volt⟩,
                   negV2 := neg2 } latch ce st fuel l0 t0 he hifc hill,
      sd_card_reset_illegal env latch ce st fuel l0 t0 he hifc hill]
  · intro r l' st' tr h
    rw [sd_card_reset_illegal env latch ce st fuel l0 t0 he hifc hill] at h
    rcases hv1 : sd_card_v1_init_process env.negV1 st fuel with
      _ | ⟨s1, st1, tr1⟩ <;> rw [hv1] at h
    · exact absurd h (by simp)
    · obtain ⟨h1, -, -, h4⟩ :
          ((0 : Nat) ||| env.ifCondStatus) |||
              (sd_card_crc_on_off env.crc ce).1 ||| s1 = r ∧
            l0 = l' ∧
            ({ st1 with
              error_in_initialization := (((0 : Nat) ||| env.ifCondStatus) |||
                (sd_card_crc_on_off env.crc ce).1 ||| s1) != 0 } :
              SdStatusState) = st' ∧
            ((t0 ++ [SdEv.cmd 8]) ++ (sd_card_crc_on_off env.crc ce).2) ++
              tr1 = tr := by
        injection h with h1
        injection h1 with h2 h3
        injection h3 with h4 h5
        injection h5 with h6 h7
        exact ⟨h2, h4, h6, h7⟩
      exact ⟨s1, st1, tr1, rfl,
        by rw [← h4, sd_card_crc_on_off_trace], h1.symm⟩

/-- C4 witness: the amended theorem applied to the concrete
`resetEnvC4` run (illegal-command bit set): the result does not change
when both R7 echo bytes and the v2 oracle are replaced. -/
theorem c4_v1_branch_exclusive_witness :
    sd_card_reset
      { resetEnvC4 with
          ifCond := ⟨resetEnvC4.ifCond.high_order_part, 0x55, 0x1⟩,
          negV2 := negEnvReady } true false initialStatus 5 =
      sd_card_reset resetEnvC4 true false initialStatus 5 :=
  (c4_v1_branch_exclusive_amended resetEnvC4 true false initialStatus 5
    true [] (by decide) rfl rfl).1 0x55 0x1 negEnvReady

/-! Inversion lemmas for the three polling loops: a timed-out exit
implies the deadline was exceeded at the tick reading it tested, and a
normal exit carries a status word that stays clean of any bit absent
from all the OR-ed inputs. -/

theorem enterLoop_timedOut_elapsed (env : EnterEnv) (t : Nat) :
    ∀ fuel i status n, enterLoop env t fuel i status = some (.timedOut n) →
      i < n ∧ sub32 (env.tick n) t > 500 := by
  intro fuel
  induction fuel with
  | zero =>
    intro i status n h
    simp [enterLoop] at h
  | succ f ih =>
    intro i status n h
    rw [enterLoop] at h
    by_cases h1 : sub32 (env.tick (i + 1)) t > 500
    · rw [if_pos h1] at h
      simp only [Option.some.injEq, EnterLoopRes.timedOut.injEq] at h
      subst h
      exact ⟨Nat.lt_succ_self i, h1⟩
    · rw [if_neg h1] at h
      by_cases h2 : env.loopRecvByte i ≠ R1_IN_IDLE_STATE
      · rw [if_pos h2] at h
        obtain ⟨h3, h4⟩ := ih (i + 1) _ n h
        exact ⟨Nat.lt_of_succ_lt h3, h4⟩
      · rw [if_neg h2] at h
        simp at h

theorem enterLoop_exited_clean (env : EnterEnv) (t m : Nat)
    (hl : ∀ i, env.loopRecvStatus i &&& m = 0) :
    ∀ fuel i status s n, status &&& m = 0 →
      enterLoop env t fuel i status = some (.exited s n) → s &&& m = 0 := by
  intro fuel
  induction fuel with
  | zero =>
    intro i status s n _ h
    simp [enterLoop] at h
  | succ f ih =>
    intro i status s n hst h
    rw [enterLoop] at h
    by_cases h1 : sub32 (env.tick (i + 1)) t > 500
    · rw [if_pos h1] at h
      simp at h
    · rw [if_neg h1] at h
      by_cases h2 : env.loopRecvByte i ≠ R1_IN_IDLE_STATE
      · rw [if_pos h2] at h
        exact ih (i + 1) _ s n (clean_lor hst (hl i)) h
      · rw [if_neg h2] at h
        simp only [Option.some.injEq, EnterLoopRes.exited.injEq] at h
        obtain ⟨rfl, -⟩ := h
        exact clean_lor hst (hl i)

theorem v1Poll_timedOut_elapsed (env : NegEnv) (t : Nat) :
    ∀ fuel i status n, v1Poll env t fuel i status = some (.timedOut n) →
      i < n ∧ sub32 (env.tick n) t > 1000 := by
  intro fuel
  induction fuel with
  | zero =>
    intro i status n h
    simp [v1Poll] at h
  | succ f ih =>
    intro i status n h
    rw [v1Poll] at h
    by_cases hc : env.opResp i = R1_CLEAR_FLAGS
    · rw [if_pos hc] at h
      simp at h
    · rw [if_neg hc] at h
      by_cases hil : env.opResp i &&& R1_ILLEGAL_COMMAND ≠ 0
      · rw [if_pos hil] at h
        simp at h
      · rw [if_neg hil] at h
        by_cases h1 : sub32 (env.tick (i + 1)) t > 1000
        · rw [if_pos h1] at h
          simp only [Option.some.injEq, PollRes.timedOut.injEq] at h
          subst h
          exact ⟨Nat.lt_succ_self i, h1⟩
        · rw [if_neg h1] at h
          obtain ⟨h3, h4⟩ := ih (i + 1) _ n h
          exact ⟨Nat.lt_of_succ_lt h3, h4⟩

theorem v1Poll_ready_clean (env : NegEnv) (t m : Nat)
    (ha : ∀ i, env.appStatus i &&& m = 0)
    (hb : ∀ i, env.opStatus i &&& m = 0) :
    ∀ fuel i status s n, status &&& m = 0 →
      v1Poll env t fuel i status = some (.ready s n) → s &&& m = 0 := by
  intro fuel
  induction fuel with
  | zero =>
    intro i status s n _ h
    simp [v1Poll] at h
  | succ f ih =>
    intro i status s n hst h
    rw [v1Poll] at h
    by_cases hc : env.opResp i = R1_CLEAR_FLAGS
    · rw [if_pos hc] at h
      simp only [Option.some.injEq, PollRes.ready.injEq] at h
      obtain ⟨rfl, -⟩ := h
      exact clean_lor (clean_lor hst (ha i)) (hb i)
    · rw [if_neg hc] at h
      by_cases hil : env.opResp i &&& R1_ILLEGAL_COMMAND ≠ 0
      · rw [if_pos hil] at h
        simp at h
      · rw [if_neg hil] at h
        by_cases h1 : sub32 (env.tick (i + 1)) t > 1000
        · rw [if_pos h1] at h
          simp at h
        · rw [if_neg h1] at h
          exact ih (i + 1) _ s n (clean_lor (clean_lor hst (ha i)) (hb i)) h

theorem v1Poll_ready_resp (env : NegEnv) (t : Nat) :
    ∀ fuel i status s n, v1Poll env t fuel i status = some (.ready s n) →
      ∃ j, i ≤ j ∧ n = j + 1 ∧ env.opResp j = R1_CLEAR_FLAGS := by
  intro fuel
  induction fuel with
  | zero =>
    intro i status s n h
    simp [v1Poll] at h
  | succ f ih =>
    intro i status s n h
    rw [v1Poll] at h
    by_cases hc : env.opResp i = R1_CLEAR_FLAGS
    · rw [if_pos hc] at h
      simp only [Option.some.injEq, PollRes.ready.injEq] at h
      obtain ⟨-, rfl⟩ := h
      exact ⟨i, Nat.le_refl i, rfl, hc⟩
    · rw [if_neg hc] at h
      by_cases hil : env.opResp i &&& R1_ILLEGAL_COMMAND ≠ 0
      · rw [if_pos hil] at h
        simp at h
      · rw [if_neg hil] at h
        by_cases h1 : sub32 (env.tick (i + 1)) t > 1000
        · rw [if_pos h1] at h
          simp at h
        · rw [if_neg h1] at h
          obtain ⟨j, hij, rfl, hr⟩ := ih (i + 1) _ s n h
          exact ⟨j, Nat.le_trans (Nat.le_succ i) hij, rfl, hr⟩

theorem v2Poll_timedOut_elapsed (env : NegEnv) (t : Nat) :
    ∀ fuel i status n, v2Poll env t fuel i status = some (.timedOut n) →
      i < n ∧ sub32 (env.tick n) t > 1000 := by
  intro fuel
  induction fuel with
  | zero =>
    intro i status n h
    simp [v2Poll] at h
  | succ f ih =>
    intro i status n h
    rw [v2Poll] at h
    by_cases hc : env.opResp i = R1_CLEAR_FLAGS
    · rw [if_pos hc] at h
      simp at h
    · rw [if_neg hc] at h
      by_cases h1 : sub32 (env.tick (i + 1)) t > 1000
      · rw [if_pos h1] at h
        simp only [Option.some.injEq, Poll2Res.timedOut.injEq] at h
        subst h
        exact ⟨Nat.lt_succ_self i, h1⟩
      · rw [if_neg h1] at h
        obtain ⟨h3, h4⟩ := ih (i + 1) _ n h
        exact ⟨Nat.lt_of_succ_lt h3, h4⟩

theorem v2Poll_ready_clean (env : NegEnv) (t m : Nat)
    (ha : ∀ i, env.appStatus i &&& m = 0)
    (hb : ∀ i, env.opStatus i &&& m = 0) :
    ∀ fuel i status s n, status &&& m = 0 →
      v2Poll env t fuel i status = some (.ready s n) → s &&& m = 0 := by
  intro fuel
  induction fuel with
  | zero =>
    intro i status s n _ h
    simp [v2Poll] at h
  | succ f ih =>
    intro i status s n hst h
    rw [v2Poll] at h
    by_cases hc : env.opResp i = R1_CLEAR_FLAGS
    · rw [if_pos hc] at h
      simp only [Option.some.injEq, Poll2Res.ready.injEq] at h
      obtain ⟨rfl, -⟩ := h
      exact clean_lor (clean_lor hst (ha i)) (hb i)
    · rw [if_neg hc] at h
      by_cases h1 : sub32 (env.tick (i + 1)) t > 1000
      · rw [if_pos h1] at h
        simp at h
      · rw [if_neg h1] at h
        exact ih (i + 1) _ s n (clean_lor (clean_lor hst (ha i)) (hb i)) h

theorem v2Poll_ready_resp (env : NegEnv) (t : Nat) :
    ∀ fuel i status s n, v2Poll env t fuel i status = some (.ready s n) →
      ∃ j, i ≤ j ∧ n = j + 1 ∧ env.opResp j = R1_CLEAR_FLAGS := by
  intro fuel
  induction fuel with
  | zero =>
    intro i status s n h
    simp [v2Poll] at h
  | succ f ih =>
    intro i status s n h
    rw [v2Poll] at h
    by_cases hc : env.opResp i = R1_CLEAR_FLAGS
    · rw [if_pos hc] at h
      simp only [Option.some.injEq, Poll2Res.ready.injEq] at h
      obtain ⟨-, rfl⟩ := h
      exact ⟨i, Nat.le_refl i, rfl, hc⟩
    · rw [if_neg hc] at h
      by_cases h1 : sub32 (env.tick (i + 1)) t > 1000
      · rw [if_pos h1] at h
        simp at h
      · rw [if_neg h1] at h
        obtain ⟨j, hij, rfl, hr⟩ := ih (i + 1) _ s n h
        exact ⟨j, Nat.le_trans (Nat.le_succ i) hij, rfl, hr⟩

/-- C6: `sd_card_enter_spi_mode` is idempotent via its one-time static
latch: with the latch already set the function returns `SD_OK`
immediately with an empty transport trace (no I/O at all), and starting
from an unset latch the new latch value is set if and only if the call
returned exactly `SD_OK` (the latch is set on line 64-65 only after the
whole entry sequence completed with accumulated status `SD_OK`; every
error return leaves it unset). -/
theorem c6_enter_spi_mode_idempotent (env : EnterEnv) (fuel : Nat) :
    sd_card_enter_spi_mode env true fuel = some (SD_OK, true, []) ∧
    ∀ r l' tr, sd_card_enter_spi_mode env false fuel = some (r, l', tr) →
      (l' = true ↔ r = SD_OK) := by
  constructor
  · rfl
  · intro r l' tr h
    simp only [sd_card_enter_spi_mode] at h
    rw [if_neg (by simp)] at h
    by_cases hp : sd_card_power_on env ≠ 0
    · rw [if_pos hp] at h
      simp only [Option.some.injEq, Prod.mk.injEq] at h
      obtain ⟨rfl, rfl, -⟩ := h
      simp [SD_OK, hp]
    · rw [if_neg hp] at h
      rcases hE : enterLoop env (env.tick 0) fuel 0
          (sd_card_power_on env ||| env.goIdleTransmitStatus |||
            env.firstRecvStatus) with - | (⟨n⟩ | ⟨s, n⟩) <;> rw [hE] at h
      · simp at h
      · simp only [Option.some.injEq, Prod.mk.injEq] at h
        obtain ⟨rfl, rfl, -⟩ := h
        simp [SD_TIMEOUT, SD_OK]
      · simp only [Option.some.injEq, Prod.mk.injEq] at h
        obtain ⟨rfl, rfl, -⟩ := h
        simp

/-- C6 witness: the theorem applied at a transport where entry succeeds
on the first poll. -/
theorem c6_enter_spi_mode_idempotent_witness :
    (true = true ↔ SD_OK = SD_OK) :=
  (c6_enter_spi_mode_idempotent enterEnvOk 5).2 SD_OK true
    [SdEv.powerOn, SdEv.cmd 0, SdEv.recv, SdEv.recv] rfl

/-- C8: the two negotiation loops treat the illegal-command flag
differently.  At any loop state whose current ACMD41 response is not
all-flags-clear but has the illegal-command bit set: (1) the v1 loop
exits immediately with the illegal outcome, which (3)
`sd_card_v1_init_process` turns into the `SD_UNUSABLE_CARD` return with
the session state unchanged; (2) the v2 loop, not yet at its deadline,
simply proceeds to the next iteration — it has no illegal-command test
and keeps polling until ready or timeout. -/
theorem c8_illegal_command_asymmetry (env : NegEnv) (t status i fuel : Nat)
    (st : SdStatusState)
    (h0 : env.opResp i ≠ R1_CLEAR_FLAGS)
    (h4 : env.opResp i &&& R1_ILLEGAL_COMMAND ≠ 0) :
    v1Poll env t (fuel + 1) i status = some (.illegal (i + 1)) ∧
    (sub32 (env.tick (i + 1)) t ≤ 1000 →
      v2Poll env t (fuel + 1) i status =
        v2Poll env t fuel (i + 1)
          (status ||| env.appStatus i ||| env.opStatus i)) ∧
    (∀ n, v1Poll env (env.tick 0) fuel 0 (SD_OK ||| env.ocrStatus) =
        some (.illegal n) →
      env.ocr1 &&& 0x1f ≠ 0 ∧ env.ocr2 &&& 0x80 ≠ 0 →
      sd_card_v1_init_process env st fuel =
        some (SD_UNUSABLE_CARD, st, SdEv.cmd 58 :: pollTrace n)) := by
  refine ⟨?_, ?_, ?_⟩
  · rw [v1Poll, if_neg h0, if_pos h4]
  · intro hle
    rw [v2Poll, if_neg h0, if_neg (Nat.not_lt.mpr hle)]
  · intro n hpoll hvolt
    simp only [sd_card_v1_init_process]
    rw [if_neg (by simp [hvolt.1, hvolt.2]), hpoll]

/-- C8 witness: the first conjunct applied at an oracle whose every
ACMD41 response is exactly the illegal-command flag. -/
theorem c8_illegal_command_asymmetry_witness :
    v1Poll negEnvIllegal 0 1 0 0 = some (PollRes.illegal 1) :=
  (c8_illegal_command_asymmetry negEnvIllegal 0 0 0 0 initialStatus
    (by decide) (by decide)).1

/-- C9: a timeout status is never reported before its deadline.
Whenever the transport statuses supplied by the oracles never carry the
`SD_TIMEOUT` bit (transport failures report other bits), a result of
`sd_card_enter_spi_mode` containing the timeout bit implies some tick
reading after `tickstart` exceeded it by more than 500, and a result of
either negotiation variant containing the timeout bit implies some tick
reading after its `tickstart` (taken just before the first ACMD41)
exceeded it by more than 1000 — the only producer of the bit is the
deadline test of the respective polling loop. -/
theorem c9_timeout_deadlines (e : EnterEnv) (env : NegEnv) (latch : Bool)
    (st : SdStatusState) (fuel : Nat)
    (hpw : e.powerOnStatus &&& SD_TIMEOUT = 0)
    (hgi : e.goIdleTransmitStatus &&& SD_TIMEOUT = 0)
    (hfr : e.firstRecvStatus &&& SD_TIMEOUT = 0)
    (hlr : ∀ i, e.loopRecvStatus i &&& SD_TIMEOUT = 0)
    (ho : env.ocrStatus &&& SD_TIMEOUT = 0)
    (ha : ∀ i, env.appStatus i &&& SD_TIMEOUT = 0)
    (hb : ∀ i, env.opStatus i &&& SD_TIMEOUT = 0) :
    (∀ r l' tr, sd_card_enter_spi_mode e latch fuel = some (r, l', tr) →
      r &&& SD_TIMEOUT ≠ 0 →
      ∃ k, 1 ≤ k ∧ sub32 (e.tick k) (e.tick 0) > 500) ∧
    (∀ r st' tr, sd_card_v1_init_process env st fuel = some (r, st', tr) →
      r &&& SD_TIMEOUT ≠ 0 →
      ∃ k, 1 ≤ k ∧ sub32 (env.tick k) (env.tick 0) > 1000) ∧
    (∀ r st' tr, sd_card_v2_init_process env st fuel = some (r, st', tr) →
      r &&& SD_TIMEOUT ≠ 0 →
      ∃ k, 1 ≤ k ∧ sub32 (env.tick k) (env.tick 0) > 1000) := by
  refine ⟨?_, ?_, ?_⟩
  · intro r l' tr h hrt
    cases latch
    case false =>
      simp only [sd_card_enter_spi_mode] at h
      rw [if_neg (by simp)] at h
      by_cases hp : sd_card_power_on e ≠ 0
      · rw [if_pos hp] at h
        simp only [Option.some.injEq, Prod.mk.injEq] at h
        obtain ⟨rfl, -, -⟩ := h
        exact absurd (clean_lor (by decide) hpw) hrt
      · rw [if_neg hp] at h
        rcases hE : enterLoop e (e.tick 0) fuel 0
            (sd_card_power_on e ||| e.goIdleTransmitStatus |||
              e.firstRecvStatus) with - | (⟨n⟩ | ⟨s, n⟩) <;> rw [hE] at h
        · simp at h
        · simp only [Option.some.injEq, Prod.mk.injEq] at h
          obtain ⟨rfl, -, -⟩ := h
          obtain ⟨h1, h2⟩ :=
            enterLoop_timedOut_elapsed e (e.tick 0) fuel 0 _ n hE
          exact ⟨n, h1, h2⟩
        · simp only [Option.some.injEq, Prod.mk.injEq] at h
          obtain ⟨rfl, -, -⟩ := h
          exact absurd
            (enterLoop_exited_clean e (e.tick 0) SD_TIMEOUT hlr fuel 0 _ s n
              (clean_lor (clean_lor (clean_lor (by decide) hpw) hgi) hfr) hE)
            hrt
    case true =>
      rw [show sd_card_enter_spi_mode e true fuel = some (SD_OK, true, [])
        from rfl] at h
      simp only [Option.some.injEq, Prod.mk.injEq] at h
      obtain ⟨rfl, -, -⟩ := h
      exact absurd (by decide) hrt
  · intro r st' tr h hrt
    simp only [sd_card_v1_init_process] at h
    by_cases hv : ¬(env.ocr1 &&& 0x1f ≠ 0 ∧ env.ocr2 &&& 0x80 ≠ 0)
    · rw [if_pos hv] at h
      simp only [Option.some.injEq, Prod.mk.injEq] at h
      obtain ⟨rfl, -, -⟩ := h
      exact absurd (by decide) hrt
    · rw [if_neg hv] at h
      rcases hP : v1Poll env (env.tick 0) fuel 0 (SD_OK ||| env.ocrStatus)
        with - | (⟨s, n⟩ | ⟨n⟩ | ⟨n⟩) <;> rw [hP] at h
      · simp at h
      · simp only [Option.some.injEq, Prod.mk.injEq] at h
        obtain ⟨rfl, -, -⟩ := h
        exact absurd
          (v1Poll_ready_clean env (env.tick 0) SD_TIMEOUT ha hb fuel 0 _ s n
            (clean_lor (by decide) ho) hP) hrt
      · simp only [Option.some.injEq, Prod.mk.injEq] at h
        obtain ⟨rfl, -, -⟩ := h
        exact absurd (by decide) hrt
      · simp only [Option.some.injEq, Prod.mk.injEq] at h
        obtain ⟨rfl, -, -⟩ := h
        obtain ⟨h1, h2⟩ :=
          v1Poll_timedOut_elapsed env (env.tick 0) fuel 0 _ n hP
        exact ⟨n, h1, h2⟩
  · intro r st' tr h hrt
    simp only [sd_card_v2_init_process] at h
    by_cases hv : ¬(env.ocr1 &&& 0x1f ≠ 0 ∧ env.ocr2 &&& 0x80 ≠ 0)
    · rw [if_pos hv] at h
      simp only [Option.some.injEq, Prod.mk.injEq] at h
      obtain ⟨rfl, -, -⟩ := h
      exact absurd (by decide) hrt
    · rw [if_neg hv] at h
      rcases hP : v2Poll env (env.tick 0) fuel 0 (SD_OK ||| env.ocrStatus)
        with - | (⟨s, n⟩ | ⟨n⟩) <;> rw [hP] at h
      · simp at h
      · simp only [Option.some.injEq, Prod.mk.injEq] at h
        obtain ⟨rfl, -, -⟩ := h
        exact absurd
          (v2Poll_ready_clean env (env.tick 0) SD_TIMEOUT ha hb fuel 0 _ s n
            (clean_lor (by decide) ho) hP) hrt
      · simp only [Option.some.injEq, Prod.mk.injEq] at h
        obtain ⟨rfl, -, -⟩ := h
        obtain ⟨h1, h2⟩ :=
          v2Poll_timedOut_elapsed env (env.tick 0) fuel 0 _ n hP
        exact ⟨n, h1, h2⟩

/-- C9 witness: the mode-entry conjunct applied at a transport whose
card never answers in-idle-state and whose clock advances 1000 ticks
per reading, so the run times out on the first loop iteration. -/
theorem c9_timeout_deadlines_witness :
    ∃ k, 1 ≤ k ∧
      sub32 (enterEnvTimeoutW.tick k) (enterEnvTimeoutW.tick 0) > 500 :=
  (c9_timeout_deadlines enterEnvTimeoutW negEnvTriv false initialStatus 1
    rfl rfl rfl
    (fun _ => by show (0 : Nat) &&& SD_TIMEOUT = 0; rfl) rfl
    (fun _ => by show (0 : Nat) &&& SD_TIMEOUT = 0; rfl)
    (fun _ => by show (0 : Nat) &&& SD_TIMEOUT = 0; rfl)).1
    SD_TIMEOUT false [SdEv.powerOn, SdEv.cmd 0, SdEv.recv, SdEv.recv] rfl
    (by decide)

/-- C10: the session state's version and capacity fields are a frame of
the negotiation variants' error returns.  Every terminating run of
either variant either left version and capacity exactly as they were
(which covers the voltage-check-failure, unusable-card and timeout
returns, all of which return the input state unchanged), or its polling
loop observed the all-flags-clear ACMD41 response and the fields were
set to the variant's values (version 1 / standard, or version 2 / the
CCS-test capacity). -/
theorem c10_session_state_frame (env : NegEnv) (st : SdStatusState)
    (fuel : Nat) :
    (∀ r st' tr, sd_card_v1_init_process env st fuel = some (r, st', tr) →
      (∃ s n j, v1Poll env (env.tick 0) fuel 0 (SD_OK ||| env.ocrStatus) =
          some (.ready s n) ∧ n = j + 1 ∧
          env.opResp j = R1_CLEAR_FLAGS ∧
          st' = { st with version := 1,
                          capacity := SdCapacity.STANDART }) ∨
      (st'.version = st.version ∧ st'.capacity = st.capacity)) ∧
    (∀ r st' tr, sd_card_v2_init_process env st fuel = some (r, st', tr) →
      (∃ s n j, v2Poll env (env.tick 0) fuel 0 (SD_OK ||| env.ocrStatus) =
          some (.ready s n) ∧ n = j + 1 ∧
          env.opResp j = R1_CLEAR_FLAGS ∧
          st' = { st with
                  capacity := if env.ocr0 &&& 0x2 ≠ 0 then
                      SdCapacity.HIGH_OR_EXTENDED
                    else SdCapacity.STANDART,
                  version := 2 }) ∨
      (st'.version = st.version ∧ st'.capacity = st.capacity)) := by
  constructor
  · intro r st' tr h
    simp only [sd_card_v1_init_process] at h
    by_cases hv : ¬(env.ocr1 &&& 0x1f ≠ 0 ∧ env.ocr2 &&& 0x80 ≠ 0)
    · rw [if_pos hv] at h
      simp only [Option.some.injEq, Prod.mk.injEq] at h
      obtain ⟨-, rfl, -⟩ := h
      exact Or.inr ⟨rfl, rfl⟩
    · rw [if_neg hv] at h
      rcases hP : v1Poll env (env.tick 0) fuel 0 (SD_OK ||| env.ocrStatus)
        with - | (⟨s, n⟩ | ⟨n⟩ | ⟨n⟩) <;> rw [hP] at h
      · simp at h
      · simp only [Option.some.injEq, Prod.mk.injEq] at h
        obtain ⟨-, rfl, -⟩ := h
        obtain ⟨j, -, hn, hj⟩ :=
          v1Poll_ready_resp env (env.tick 0) fuel 0 _ s n hP
        exact Or.inl ⟨s, n, j, rfl, hn, hj, rfl⟩
      · simp only [Option.some.injEq, Prod.mk.injEq] at h
        obtain ⟨-, rfl, -⟩ := h
        exact Or.inr ⟨rfl, rfl⟩
      · simp only [Option.some.injEq, Prod.mk.injEq] at h
        obtain ⟨-, rfl, -⟩ := h
        exact Or.inr ⟨rfl, rfl⟩
  · intro r st' tr h
    simp only [sd_card_v2_init_process] at h
    by_cases hv : ¬(env.ocr1 &&& 0x1f ≠ 0 ∧ env.ocr2 &&& 0x80 ≠ 0)
    · rw [if_pos hv] at h
      simp only [Option.some.injEq, Prod.mk.injEq] at h
      obtain ⟨-, rfl, -⟩ := h
      exact Or.inr ⟨rfl, rfl⟩
    · rw [if_neg hv] at h
      rcases hP : v2Poll env (env.tick 0) fuel 0 (SD_OK ||| env.ocrStatus)
        with - | (⟨s, n⟩ | ⟨n⟩) <;> rw [hP] at h
      · simp at h
      · simp only [Option.some.injEq, Prod.mk.injEq] at h
        obtain ⟨-, rfl, -⟩ := h
        obtain ⟨j, -, hn, hj⟩ :=
          v2Poll_ready_resp env (env.tick 0) fuel 0 _ s n hP
        exact Or.inl ⟨s, n, j, rfl, hn, hj, rfl⟩
      · simp only [Option.some.injEq, Prod.mk.injEq] at h
        obtain ⟨-, rfl, -⟩ := h
        exact Or.inr ⟨rfl, rfl⟩

/-- C10 witness: the v1 conjunct applied to a timing-out run over
`negEnvLostBit`, which returns with the session state unchanged. -/
theorem c10_session_state_frame_witness :
    (∃ s n j, v1Poll negEnvLostBit (negEnvLostBit.tick 0) 5 0
        (SD_OK ||| negEnvLostBit.ocrStatus) = some (PollRes.ready s n) ∧
        n = j + 1 ∧ negEnvLostBit.opResp j = R1_CLEAR_FLAGS ∧
        initialStatus = { initialStatus with version := 1, capacity := SdCapacity.STANDART }) ∨
    (initialStatus.version = initialStatus.version ∧
      initialStatus.capacity = initialStatus.capacity) :=
  (c10_session_state_frame negEnvLostBit initialStatus 5).1 SD_TIMEOUT
    initialStatus [SdEv.cmd 58, SdEv.cmd 55, SdEv.cmd 41] rfl

end SDDriver
